import Mathlib

/-!
Shallow embedding of `src/App.tsx` of the ai-image-generator app.

The app is a single React component.  Its state (React `useState` hooks) is
modelled by `AppState`; the two event handlers `generateImage` and
`downloadImage` are modelled as pure functions over that state, with the
outcomes of the external calls (`blink.ai.generateImage`, `fetch`) passed in
as explicit `Except`-valued parameters, and the side effects (the network
request that is issued, toast notifications, DOM manipulation) recorded
explicitly.  JavaScript string operations (`trim`, `slice`, the regex
`replace`) are modelled over `String.data`, the underlying character list.
Machine time (`Date.now()`) is passed in as explicit `Nat` parameters, one
per call site (the handler reads the clock twice).
-/

namespace ImageGen

/-- The `GeneratedImage` interface of `App.tsx` (lines 13-20). -/
structure GeneratedImage where
  id : String
  url : String
  prompt : String
  timestamp : Nat
  size : String
  quality : String
deriving DecidableEq, Repr

/-- The authenticated user object; the app only reads `user.email`
(`App.tsx` line 125). -/
structure User where
  email : String
deriving DecidableEq, Repr

/-- The session state delivered by `blink.auth.onAuthStateChanged`
(`App.tsx` lines 32-35): a `user` field and an `isLoading` flag. -/
structure AuthState where
  user : Option User
  isLoading : Bool
deriving DecidableEq, Repr

/-- The component's `useState` hooks (`App.tsx` lines 23-29). -/
structure AppState where
  user : Option User
  loading : Bool
  prompt : String
  size : String
  quality : String
  generating : Bool
  generatedImages : List GeneratedImage
deriving DecidableEq, Repr

/-- One element of the `data` array returned by `blink.ai.generateImage`;
the app only reads its `url` field (`App.tsx` line 56). -/
structure ImageData where
  url : String
deriving DecidableEq, Repr

/-- The payload sent to `blink.ai.generateImage` (`App.tsx` lines 47-52). -/
structure Request where
  prompt : String
  size : String
  quality : String
  n : Nat
deriving DecidableEq, Repr

/-- A transient toast notification (`react-hot-toast`). -/
inductive Toast where
  | success (msg : String)
  | error (msg : String)
deriving DecidableEq, Repr

/-- JavaScript `String.prototype.trim` removes leading and trailing
whitespace characters; the characters tested here are the ASCII whitespace
class plus the no-break space. -/
def isJsWhitespace (c : Char) : Bool :=
  c = ' ' || c = '\t' || c = '\n' || c = '\r' ||
  c = '\x0b' || c = '\x0c' || c = ' '

/-- Model of JavaScript `s.trim()`: drop whitespace from both ends. -/
def jsTrim (s : String) : String :=
  String.mk ((((s.data.dropWhile isJsWhitespace).reverse.dropWhile
      isJsWhitespace)).reverse)

/-- Toast shown when the prompt is empty after trimming (`App.tsx` line 41). -/
def validationToast : Toast :=
  Toast.error "Please enter a prompt to generate an image"

/-- Toast shown when the generation call throws (`App.tsx` line 67). -/
def generateFailureToast : Toast :=
  Toast.error "Failed to generate image. Please try again."

/-- Toast shown on a successful generation (`App.tsx` line 64). -/
def generateSuccessToast : Toast :=
  Toast.success "Image generated successfully!"

/-- One observable step of the `generateImage` handler: a state-setter
call, the outgoing network request, or a toast. -/
inductive Event where
  | setGenerating (b : Bool)
  | request (r : Request)
  | prependImage (img : GeneratedImage)
  | toast (t : Toast)
deriving DecidableEq, Repr

/-- Effect of one event on the component state.  `setGenerating` models the
`setGenerating` hook setter; `prependImage` models
`setGeneratedImages(prev => [newImage, ...prev])` (`App.tsx` line 63);
requests and toasts do not touch component state. -/
def applyEvent (s : AppState) : Event → AppState
  | Event.setGenerating b => { s with generating := b }
  | Event.prependImage img => { s with generatedImages := img :: s.generatedImages }
  | Event.request _ => s
  | Event.toast _ => s

/-- Linearized trace of one call to `generateImage` (`App.tsx` lines 39-71).
`respond` is the outcome of the awaited `blink.ai.generateImage` call: a
thrown error, or the `data` array of the response.  `nowId` and `nowTs` are
the two reads of `Date.now()` (lines 55 and 58).

* Guard (lines 40-43): if the trimmed prompt is empty, only the validation
  toast is emitted and the handler returns.
* Otherwise `setGenerating(true)` (line 45), then the request (lines 47-52).
* If the call throws, the `catch` arm emits the failure toast (line 67).
* If it returns `data`, line 56 reads `data[0].url`; when `data` is empty
  this reads `.url` of `undefined`, which throws and lands in the same
  `catch` arm, so no record is constructed.
* Otherwise the new record is prepended and the success toast emitted
  (lines 54-64).
* The `finally` arm runs `setGenerating(false)` in every non-guard path
  (line 69). -/
def generateTrace (s : AppState) (nowId nowTs : Nat)
    (respond : Except Unit (List ImageData)) : List Event :=
  if jsTrim s.prompt = "" then
    [Event.toast validationToast]
  else
    Event.setGenerating true ::
    Event.request
      { prompt := jsTrim s.prompt, size := s.size, quality := s.quality, n := 1 } ::
    ((match respond with
      | Except.error _ => [Event.toast generateFailureToast]
      | Except.ok data =>
        match data with
        | [] => [Event.toast generateFailureToast]
        | first :: _ =>
          [Event.prependImage
            { id := Nat.repr nowId
              url := first.url
              prompt := jsTrim s.prompt
              timestamp := nowTs
              size := s.size
              quality := s.quality },
           Event.toast generateSuccessToast]) ++
     [Event.setGenerating false])

/-- Component state after one call to `generateImage`: fold the trace. -/
def generateImage (s : AppState) (nowId nowTs : Nat)
    (respond : Except Unit (List ImageData)) : AppState :=
  (generateTrace s nowId nowTs respond).foldl applyEvent s

/-- The network requests recorded in a trace. -/
def requestsOf (tr : List Event) : List Request :=
  tr.filterMap fun e =>
    match e with
    | Event.request r => some r
    | _ => none

/-- The toasts recorded in a trace. -/
def toastsOf (tr : List Event) : List Toast :=
  tr.filterMap fun e =>
    match e with
    | Event.toast t => some t
    | _ => none

/-- The records prepended to the result sequence in a trace. -/
def prependsOf (tr : List Event) : List GeneratedImage :=
  tr.filterMap fun e =>
    match e with
    | Event.prependImage img => some img
    | _ => none

/-- JavaScript `prompt.slice(0, 30)` (`App.tsx` line 80). -/
def jsSlice30 (s : String) : String :=
  String.mk (s.data.take 30)

/-- JavaScript `s.replace(/[^a-zA-Z0-9]/g, '-')` (`App.tsx` line 80):
every character outside `a-zA-Z0-9` becomes a hyphen. -/
def replaceNonAlnum (s : String) : String :=
  String.mk (s.data.map fun c => if c.isAlphanum then c else '-')

/-- The download filename built at `App.tsx` line 80. -/
def downloadFilename (prompt : String) : String :=
  "ai-generated-" ++ replaceNonAlnum (jsSlice30 prompt) ++ ".png"

/-- Toast shown on a successful download (`App.tsx` line 85). -/
def downloadSuccessToast : Toast :=
  Toast.success "Image downloaded!"

/-- Toast shown when the download fails (`App.tsx` line 87). -/
def downloadFailureToast : Toast :=
  Toast.error "Failed to download image"

/-- A synthesized anchor element: its `href` and `download` attributes
(`App.tsx` lines 78-80). -/
structure Anchor where
  href : String
  download : String
deriving DecidableEq, Repr

/-- The browser resources `downloadImage` touches: anchors attached to
`document.body` and live object URLs. -/
structure DOM where
  anchors : List Anchor
  objectURLs : List String
deriving DecidableEq, Repr

/-- Observable outcome of one call to `downloadImage`. -/
structure DownloadResult where
  dom : DOM
  fetched : List String
  clicks : List Anchor
  toasts : List Toast
deriving DecidableEq, Repr

/-- The `downloadImage` handler (`App.tsx` lines 73-89).  `fetched` is the
outcome of the awaited `fetch`/`blob`/`createObjectURL` chain (lines
75-77): a thrown error, or the fresh object URL.  On success the handler
synthesizes an anchor with the sanitized filename, appends it to the body,
clicks it, then revokes the object URL and removes the anchor (lines
78-84); every thrown error lands in the `catch` arm (lines 86-88). -/
def downloadImage (dom : DOM) (imageUrl prompt : String)
    (fetched : Except Unit String) : DownloadResult :=
  match fetched with
  | Except.error _ =>
      { dom := dom
        fetched := [imageUrl]
        clicks := []
        toasts := [downloadFailureToast] }
  | Except.ok objUrl =>
      let a : Anchor := { href := objUrl, download := downloadFilename prompt }
      let dom1 : DOM := { dom with objectURLs := objUrl :: dom.objectURLs }
      let dom2 : DOM := { dom1 with anchors := a :: dom1.anchors }
      let dom3 : DOM := { dom2 with objectURLs := dom2.objectURLs.erase objUrl }
      let dom4 : DOM := { dom3 with anchors := dom3.anchors.erase a }
      { dom := dom4
        fetched := [imageUrl]
        clicks := [a]
        toasts := [downloadSuccessToast] }

/-- The auth callback of `App.tsx` lines 32-35: replace local `user` and
`loading` with exactly the delivered values. -/
def onAuthNotification (s : AppState) (st : AuthState) : AppState :=
  { s with user := st.user, loading := st.isLoading }

/-- The user-driven operations of the component that can touch its state:
the two handlers, the three controlled inputs (`Textarea` and the two
`Select`s), and a session-state notification. -/
inductive Op where
  | generate (nowId nowTs : Nat) (respond : Except Unit (List ImageData))
  | download (imageUrl prompt : String) (fetched : Except Unit String)
  | setPrompt (p : String)
  | setSize (v : String)
  | setQuality (v : String)
  | authChange (st : AuthState)
deriving Repr

/-- Effect of one operation on the component state.  `downloadImage` never
calls a state setter, so `download` leaves the state unchanged. -/
def step (s : AppState) : Op → AppState
  | Op.generate nowId nowTs respond => generateImage s nowId nowTs respond
  | Op.download _ _ _ => s
  | Op.setPrompt p => { s with prompt := p }
  | Op.setSize v => { s with size := v }
  | Op.setQuality v => { s with quality := v }
  | Op.authChange st => onAuthNotification s st

/-- Run a sequence of operations from a state. -/
def runOps (s : AppState) : List Op → AppState
  | [] => s
  | op :: ops => runOps (step s op) ops

/-- Whether an operation is a generation call that takes the success path:
the prompt is non-empty after trimming and the response carries at least
one result. -/
def isSuccessCall (s : AppState) : Op → Bool
  | Op.generate _ _ (Except.ok (_ :: _)) => !(jsTrim s.prompt == "")
  | _ => false

/-- Number of successful generation calls along a run. -/
def countSuccess (s : AppState) : List Op → Nat
  | [] => 0
  | op :: ops =>
      (if isSuccessCall s op then 1 else 0) + countSuccess (step s op) ops

/-- Modelled from the spec: the external auth provider
(`blink.auth.onAuthStateChanged` lives in the SDK, outside the
repository).  The spec gives its interface as "subscribe(callback) →
unsubscribe function"; registered observers are identified by freshly
allocated ids. -/
structure AuthProvider where
  nextId : Nat
  observers : List Nat
deriving DecidableEq, Repr

/-- Modelled from the spec: registering a callback returns the updated
provider and the fresh observer id. -/
def providerSubscribe (p : AuthProvider) : AuthProvider × Nat :=
  ({ nextId := p.nextId + 1, observers := p.nextId :: p.observers }, p.nextId)

/-- Modelled from the spec: the unsubscribe function returned by
`providerSubscribe` deregisters that observer. -/
def providerUnsubscribe (p : AuthProvider) (i : Nat) : AuthProvider :=
  { p with observers := p.observers.erase i }

/-- The mount effect (`useEffect` with an empty dependency list,
`App.tsx` lines 31-37): register for session-state notifications, keeping
the returned unsubscribe handle. -/
def mountSessionObserver (p : AuthProvider) : AuthProvider × Nat :=
  providerSubscribe p

/-- The effect cleanup run on teardown: the effect returns exactly the
unsubscribe function (`App.tsx` line 36). -/
def unmountSessionObserver (p : AuthProvider) (i : Nat) : AuthProvider :=
  providerUnsubscribe p i

/-- A concrete state used to instantiate the claim theorems: the scenario
of the spec (prompt `"a red fox"`, size `"1024x1024"`, quality `"high"`). -/
def sampleState : AppState :=
  { user := none
    loading := false
    prompt := "a red fox"
    size := "1024x1024"
    quality := "high"
    generating := false
    generatedImages := [] }

/-- With positive fuel, `Nat.toDigitsCore` emits at least one digit. -/
theorem toDigitsCore_length_gt (b : Nat) :
    ∀ (f n : Nat) (acc : List Char),
      acc.length < (Nat.toDigitsCore b (f + 1) n acc).length := by
  intro f
  induction f with
  | zero =>
    intro n acc
    simp only [Nat.toDigitsCore]
    by_cases h : n / b = 0 <;> simp [h, Nat.toDigitsCore]
  | succ f ih =>
    intro n acc
    simp only [Nat.toDigitsCore]
    by_cases h : n / b = 0
    · simp [h]
    · simp only [h, if_false]
      exact Nat.lt_trans (Nat.lt_succ_self _) (ih (n / b) (Nat.digitChar (n % b) :: acc))

/-- `Date.now().toString()` is never the empty string. -/
theorem repr_ne_empty (n : Nat) : Nat.repr n ≠ "" := by
  intro hc
  have h1 : 0 < (Nat.toDigitsCore 10 (n + 1) n []).length := toDigitsCore_length_gt 10 n n []
  have h2 : Nat.repr n = String.mk (Nat.toDigitsCore 10 (n + 1) n []) := rfl
  rw [h2] at hc
  have h3 : Nat.toDigitsCore 10 (n + 1) n [] = [] := by
    have h4 := congrArg String.data hc
    simpa using h4
  simp [h3] at h1

/-- Guard branch: with an empty trimmed prompt the handler returns before
touching any state. -/
theorem generateImage_guard (s : AppState) (nowId nowTs : Nat)
    (respond : Except Unit (List ImageData)) (h : jsTrim s.prompt = "") :
    generateImage s nowId nowTs respond = s := by
  unfold generateImage generateTrace
  rw [if_pos h]
  rfl

/-- Thrown-error branch: only the in-flight flag is reset. -/
theorem generateImage_error_eq (s : AppState) (nowId nowTs : Nat) (e : Unit)
    (h : ¬ jsTrim s.prompt = "") :
    generateImage s nowId nowTs (Except.error e) = { s with generating := false } := by
  unfold generateImage generateTrace
  rw [if_neg h]
  rfl

/-- Empty-`data` branch: reading `data[0].url` throws, so the `catch` arm
runs and only the in-flight flag is reset. -/
theorem generateImage_nil_eq (s : AppState) (nowId nowTs : Nat)
    (h : ¬ jsTrim s.prompt = "") :
    generateImage s nowId nowTs (Except.ok []) = { s with generating := false } := by
  unfold generateImage generateTrace
  rw [if_neg h]
  rfl

/-- Success branch: the new record is prepended and the flag reset. -/
theorem generateImage_cons_eq (s : AppState) (nowId nowTs : Nat)
    (first : ImageData) (rest : List ImageData) (h : ¬ jsTrim s.prompt = "") :
    generateImage s nowId nowTs (Except.ok (first :: rest))
      = { s with
            generating := false
            generatedImages :=
              { id := Nat.repr nowId
                url := first.url
                prompt := jsTrim s.prompt
                timestamp := nowTs
                size := s.size
                quality := s.quality } :: s.generatedImages } := by
  unfold generateImage generateTrace
  rw [if_neg h]
  rfl

/-- Claim C1: for a non-empty trimmed prompt and a successful response with
at least one result, exactly one record is prepended (the length grows by
one); it carries the fresh non-empty identifier derived from the current
time, the first response element's URL, the trimmed prompt, the current
timestamp, and the selected size and quality; the success notification is
emitted. -/
theorem generate_success_prepends (s : AppState) (nowId nowTs : Nat)
    (first : ImageData) (rest : List ImageData) (h : jsTrim s.prompt ≠ "") :
    (generateImage s nowId nowTs (Except.ok (first :: rest))).generatedImages.length
        = s.generatedImages.length + 1 ∧
    (generateImage s nowId nowTs (Except.ok (first :: rest))).generatedImages
        = { id := Nat.repr nowId
            url := first.url
            prompt := jsTrim s.prompt
            timestamp := nowTs
            size := s.size
            quality := s.quality } :: s.generatedImages ∧
    Nat.repr nowId ≠ "" ∧
    toastsOf (generateTrace s nowId nowTs (Except.ok (first :: rest)))
        = [generateSuccessToast] := by
  refine ⟨?_, ?_, repr_ne_empty nowId, ?_⟩
  · rw [generateImage_cons_eq s nowId nowTs first rest h]
    simp
  · rw [generateImage_cons_eq s nowId nowTs first rest h]
  · unfold generateTrace
    rw [if_neg h]
    rfl

/-- Claim C1 witness: the spec's scenario with one returned URL. -/
theorem generate_success_prepends_witness :
    jsTrim sampleState.prompt ≠ "" ∧
    ((generateImage sampleState 5 6
        (Except.ok [{ url := "https://img/1.png" }])).generatedImages.length
        = sampleState.generatedImages.length + 1 ∧
    (generateImage sampleState 5 6
        (Except.ok [{ url := "https://img/1.png" }])).generatedImages
        = { id := Nat.repr 5
            url := "https://img/1.png"
            prompt := jsTrim sampleState.prompt
            timestamp := 6
            size := sampleState.size
            quality := sampleState.quality } :: sampleState.generatedImages ∧
    Nat.repr 5 ≠ "" ∧
    toastsOf (generateTrace sampleState 5 6
        (Except.ok [{ url := "https://img/1.png" }]))
        = [generateSuccessToast]) :=
  ⟨by decide, generate_success_prepends sampleState 5 6 { url := "https://img/1.png" } [] (by decide)⟩

/-- Claim C2: for a non-empty trimmed prompt, when the generation call
throws, the result sequence is left exactly as it was and the generic
failure notification is emitted. -/
theorem generate_error_atomic (s : AppState) (nowId nowTs : Nat) (e : Unit)
    (h : jsTrim s.prompt ≠ "") :
    (generateImage s nowId nowTs (Except.error e)).generatedImages
        = s.generatedImages ∧
    toastsOf (generateTrace s nowId nowTs (Except.error e))
        = [generateFailureToast] := by
  refine ⟨?_, ?_⟩
  · rw [generateImage_error_eq s nowId nowTs e h]
  · unfold generateTrace
    rw [if_neg h]
    rfl

/-- Claim C2 witness: the spec's scenario with a thrown error. -/
theorem generate_error_atomic_witness :
    jsTrim sampleState.prompt ≠ "" ∧
    ((generateImage sampleState 5 6 (Except.error ())).generatedImages
        = sampleState.generatedImages ∧
    toastsOf (generateTrace sampleState 5 6 (Except.error ()))
        = [generateFailureToast]) :=
  ⟨by decide, generate_error_atomic sampleState 5 6 () (by decide)⟩

/-- Claim C3: for an empty or whitespace-only prompt, the handler performs
no network call, leaves the whole component state (in particular the result
sequence and the in-flight flag) unchanged, and emits exactly the
validation notification, whatever the environment would have answered. -/
theorem generate_empty_prompt (s : AppState) (nowId nowTs : Nat)
    (respond : Except Unit (List ImageData)) (h : jsTrim s.prompt = "") :
    generateImage s nowId nowTs respond = s ∧
    requestsOf (generateTrace s nowId nowTs respond) = [] ∧
    toastsOf (generateTrace s nowId nowTs respond) = [validationToast] := by
  refine ⟨generateImage_guard s nowId nowTs respond h, ?_, ?_⟩ <;>
    · unfold generateTrace
      rw [if_pos h]
      rfl

/-- Claim C3 witness: a whitespace-only prompt. -/
theorem generate_empty_prompt_witness :
    jsTrim "   " = "" ∧
    (generateImage { sampleState with prompt := "   " } 5 6 (Except.ok [])
        = { sampleState with prompt := "   " } ∧
    requestsOf (generateTrace { sampleState with prompt := "   " } 5 6 (Except.ok [])) = [] ∧
    toastsOf (generateTrace { sampleState with prompt := "   " } 5 6 (Except.ok []))
        = [validationToast]) :=
  ⟨by decide, generate_empty_prompt { sampleState with prompt := "   " } 5 6
      (Except.ok []) (by decide)⟩

/-- Claim C4: for a non-empty trimmed prompt, exactly one request is issued
and its payload is exactly the trimmed prompt, the selected size and
quality, and `n = 1`. -/
theorem generate_request_payload (s : AppState) (nowId nowTs : Nat)
    (respond : Except Unit (List ImageData)) (h : jsTrim s.prompt ≠ "") :
    requestsOf (generateTrace s nowId nowTs respond)
        = [{ prompt := jsTrim s.prompt, size := s.size, quality := s.quality, n := 1 }] := by
  unfold generateTrace
  rw [if_neg h]
  cases respond with
  | error e => rfl
  | ok data => cases data <;> rfl

/-- Claim C4 witness: the spec's scenario. -/
theorem generate_request_payload_witness :
    jsTrim sampleState.prompt ≠ "" ∧
    requestsOf (generateTrace sampleState 5 6 (Except.ok [{ url := "https://img/1.png" }]))
        = [{ prompt := jsTrim sampleState.prompt
             size := sampleState.size
             quality := sampleState.quality
             n := 1 }] :=
  ⟨by decide, generate_request_payload sampleState 5 6
      (Except.ok [{ url := "https://img/1.png" }]) (by decide)⟩

/-- Claim C5: for a non-empty trimmed prompt, the in-flight flag is set
true before the request is issued and set false after the call resolves on
both the success and the failure path (the `finally` arm), with no other
flag or request event in between; along the handler's execution the flag is
true exactly strictly between issuance and resolution. -/
theorem generating_lifecycle (s : AppState) (nowId nowTs : Nat)
    (respond : Except Unit (List ImageData)) (h : jsTrim s.prompt ≠ "")
    (h0 : s.generating = false) :
    (∃ mid, generateTrace s nowId nowTs respond
        = Event.setGenerating true ::
          Event.request
            { prompt := jsTrim s.prompt, size := s.size, quality := s.quality, n := 1 } ::
          (mid ++ [Event.setGenerating false]) ∧
        ∀ e ∈ mid, (∀ b, e ≠ Event.setGenerating b) ∧ ∀ r, e ≠ Event.request r) ∧
    (List.scanl applyEvent s (generateTrace s nowId nowTs respond)).map AppState.generating
        = false :: (List.replicate
            ((generateTrace s nowId nowTs respond).length - 1) true ++ [false]) := by
  constructor
  · unfold generateTrace
    rw [if_neg h]
    cases respond with
    | error e =>
        refine ⟨[Event.toast generateFailureToast], rfl, ?_⟩
        simp
    | ok data =>
        cases data with
        | nil =>
            refine ⟨[Event.toast generateFailureToast], rfl, ?_⟩
            simp
        | cons first rest =>
            refine ⟨[Event.prependImage
                { id := Nat.repr nowId
                  url := first.url
                  prompt := jsTrim s.prompt
                  timestamp := nowTs
                  size := s.size
                  quality := s.quality },
              Event.toast generateSuccessToast], rfl, ?_⟩
            simp
  · unfold generateTrace
    rw [if_neg h]
    cases respond with
    | error e => simp [List.scanl, applyEvent, List.replicate, h0]
    | ok data =>
        cases data with
        | nil => simp [List.scanl, applyEvent, List.replicate, h0]
        | cons first rest => simp [List.scanl, applyEvent, List.replicate, h0]

/-- Claim C5 witness: the spec's scenario with one returned URL. -/
theorem generating_lifecycle_witness :
    jsTrim sampleState.prompt ≠ "" ∧
    sampleState.generating = false ∧
    ((∃ mid, generateTrace sampleState 5 6 (Except.ok [{ url := "https://img/1.png" }])
        = Event.setGenerating true ::
          Event.request
            { prompt := jsTrim sampleState.prompt
              size := sampleState.size
              quality := sampleState.quality
              n := 1 } ::
          (mid ++ [Event.setGenerating false]) ∧
        ∀ e ∈ mid, (∀ b, e ≠ Event.setGenerating b) ∧ ∀ r, e ≠ Event.request r) ∧
    (List.scanl applyEvent sampleState
        (generateTrace sampleState 5 6
          (Except.ok [{ url := "https://img/1.png" }]))).map AppState.generating
        = false :: (List.replicate
            ((generateTrace sampleState 5 6
              (Except.ok [{ url := "https://img/1.png" }])).length - 1) true
            ++ [false])) :=
  ⟨by decide, rfl,
    generating_lifecycle sampleState 5 6
      (Except.ok [{ url := "https://img/1.png" }]) (by decide) rfl⟩

/-- Per-step dichotomy: a generation call with a non-empty trimmed prompt
and a non-empty successful response prepends exactly one record; every
other operation leaves the result sequence untouched. -/
theorem step_images_dichotomy (s : AppState) (op : Op) :
    if isSuccessCall s op then
      ∃ img, (step s op).generatedImages = img :: s.generatedImages
    else (step s op).generatedImages = s.generatedImages := by
  cases op with
  | generate nowId nowTs respond =>
    simp only [step]
    by_cases h : jsTrim s.prompt = ""
    · have hf : isSuccessCall s (Op.generate nowId nowTs respond) = false := by
        cases respond with
        | error e => rfl
        | ok data =>
          cases data with
          | nil => rfl
          | cons a l => simp [isSuccessCall, h]
      rw [hf, if_neg Bool.false_ne_true]
      rw [generateImage_guard s nowId nowTs respond h]
    · cases respond with
      | error e =>
        rw [show isSuccessCall s (Op.generate nowId nowTs (Except.error e)) = false from rfl,
          if_neg Bool.false_ne_true]
        rw [generateImage_error_eq s nowId nowTs e h]
      | ok data =>
        cases data with
        | nil =>
          rw [show isSuccessCall s (Op.generate nowId nowTs (Except.ok [])) = false from rfl,
            if_neg Bool.false_ne_true]
          rw [generateImage_nil_eq s nowId nowTs h]
        | cons first rest =>
          have ht : isSuccessCall s (Op.generate nowId nowTs (Except.ok (first :: rest)))
              = true := by
            simp [isSuccessCall, h]
          rw [ht, if_pos rfl]
          exact ⟨_, by rw [generateImage_cons_eq s nowId nowTs first rest h]⟩
  | download u p f => simp [step, isSuccessCall]
  | setPrompt p => simp [step, isSuccessCall]
  | setSize v => simp [step, isSuccessCall]
  | setQuality v => simp [step, isSuccessCall]
  | authChange st => simp [step, isSuccessCall, onAuthNotification]

/-- Length form of `step_images_dichotomy`. -/
theorem step_images_length (s : AppState) (op : Op) :
    (step s op).generatedImages.length
      = s.generatedImages.length + (if isSuccessCall s op then 1 else 0) := by
  have hd := step_images_dichotomy s op
  by_cases h : isSuccessCall s op
  · rw [if_pos h] at hd ⊢
    obtain ⟨img, himg⟩ := hd
    simp [himg]
  · rw [if_neg h] at hd ⊢
    simp [hd]

/-- Suffix form of `step_images_dichotomy`: no step removes or rewrites an
existing record. -/
theorem step_images_suffix (s : AppState) (op : Op) :
    List.IsSuffix s.generatedImages (step s op).generatedImages := by
  have hd := step_images_dichotomy s op
  by_cases h : isSuccessCall s op
  · rw [if_pos h] at hd
    obtain ⟨img, himg⟩ := hd
    rw [himg]
    exact List.suffix_cons img _
  · rw [if_neg h] at hd
    rw [hd]

/-- Claim C6: along any run of operations the initial result sequence
survives as a suffix (entries are never mutated or deleted), the length
equals the initial length plus the number of successful generation calls
(the 1:1 correspondence), and a single step prepends a record exactly when
it is a successful generation call. -/
theorem result_sequence_invariant (s : AppState) (ops : List Op) :
    List.IsSuffix s.generatedImages (runOps s ops).generatedImages ∧
    (runOps s ops).generatedImages.length
        = s.generatedImages.length + countSuccess s ops ∧
    ∀ op, if isSuccessCall s op then
        ∃ img, (step s op).generatedImages = img :: s.generatedImages
      else (step s op).generatedImages = s.generatedImages := by
  refine ⟨?_, ?_, fun op => step_images_dichotomy s op⟩
  · induction ops generalizing s with
    | nil => exact List.suffix_refl _
    | cons op ops ih =>
      exact List.IsSuffix.trans (step_images_suffix s op) (ih (step s op))
  · induction ops generalizing s with
    | nil => simp [runOps, countSuccess]
    | cons op ops ih =>
      show (runOps (step s op) ops).generatedImages.length = _
      rw [ih (step s op), step_images_length]
      show _ = s.generatedImages.length
          + ((if isSuccessCall s op then 1 else 0) + countSuccess (step s op) ops)
      omega

/-- Claim C7: for a non-empty trimmed prompt and a successful response
whose `data` array is empty, the read of `data[0].url` cannot complete the
record construction: no record is prepended, the result sequence is
unchanged, and control lands in the `catch` arm, whose failure toast is
emitted. -/
theorem generate_empty_array (s : AppState) (nowId nowTs : Nat)
    (h : jsTrim s.prompt ≠ "") :
    prependsOf (generateTrace s nowId nowTs (Except.ok [])) = [] ∧
    (generateImage s nowId nowTs (Except.ok [])).generatedImages
        = s.generatedImages ∧
    toastsOf (generateTrace s nowId nowTs (Except.ok []))
        = [generateFailureToast] := by
  refine ⟨?_, ?_, ?_⟩
  · unfold generateTrace
    rw [if_neg h]
    rfl
  · rw [generateImage_nil_eq s nowId nowTs h]
  · unfold generateTrace
    rw [if_neg h]
    rfl

/-- Claim C7 witness: the spec's scenario with an empty response array. -/
theorem generate_empty_array_witness :
    jsTrim sampleState.prompt ≠ "" ∧
    (prependsOf (generateTrace sampleState 5 6 (Except.ok [])) = [] ∧
    (generateImage sampleState 5 6 (Except.ok [])).generatedImages
        = sampleState.generatedImages ∧
    toastsOf (generateTrace sampleState 5 6 (Except.ok []))
        = [generateFailureToast]) :=
  ⟨by decide, generate_empty_array sampleState 5 6 (by decide)⟩

/-- Claim C8: the download filename is built from the first 30 characters
of the prompt with every non-alphanumeric character replaced by a hyphen
(so it only depends on that truncation); on a successful fetch the handler
clicks a temporary anchor carrying that filename and then restores the DOM
(the object URL is revoked and the anchor removed); on a failed fetch it
only emits the generic failure notification. -/
theorem download_behavior (dom : DOM) (imageUrl prompt : String) :
    (downloadFilename prompt).data
        = "ai-generated-".data
          ++ (prompt.data.take 30).map (fun c => if c.isAlphanum then c else '-')
          ++ ".png".data ∧
    downloadFilename prompt = downloadFilename (jsSlice30 prompt) ∧
    (∀ objUrl,
        (downloadImage dom imageUrl prompt (Except.ok objUrl)).dom = dom ∧
        (downloadImage dom imageUrl prompt (Except.ok objUrl)).fetched = [imageUrl] ∧
        (downloadImage dom imageUrl prompt (Except.ok objUrl)).clicks
            = [{ href := objUrl, download := downloadFilename prompt }] ∧
        (downloadImage dom imageUrl prompt (Except.ok objUrl)).toasts
            = [downloadSuccessToast]) ∧
    (∀ e, (downloadImage dom imageUrl prompt (Except.error e)).dom = dom ∧
        (downloadImage dom imageUrl prompt (Except.error e)).clicks = [] ∧
        (downloadImage dom imageUrl prompt (Except.error e)).toasts
            = [downloadFailureToast]) := by
  refine ⟨?_, ?_, ?_, ?_⟩
  · simp [downloadFilename, replaceNonAlnum, jsSlice30, String.data_append]
  · simp [downloadFilename, replaceNonAlnum, jsSlice30, List.take_take]
  · intro objUrl
    refine ⟨?_, rfl, rfl, rfl⟩
    simp [downloadImage, List.erase_cons_head]
  · intro e
    exact ⟨rfl, rfl, rfl⟩

/-- Claim C9: mounting the session observer registers exactly one fresh
observer with the provider; unmounting with the returned handle restores
the provider's observer list (no leaked observer); each notification
replaces local `user` and `loading` with exactly the delivered values. -/
theorem session_observer_contract (p : AuthProvider) (s : AppState) (st : AuthState) :
    (mountSessionObserver p).1.observers
        = (mountSessionObserver p).2 :: p.observers ∧
    (unmountSessionObserver (mountSessionObserver p).1 (mountSessionObserver p).2).observers
        = p.observers ∧
    (onAuthNotification s st).user = st.user ∧
    (onAuthNotification s st).loading = st.isLoading := by
  refine ⟨rfl, ?_, rfl, rfl⟩
  simp [mountSessionObserver, providerSubscribe, unmountSessionObserver,
    providerUnsubscribe, List.erase_cons_head]

/-- Claim C10: one call to `generateImage`, on every path, leaves the
prompt text, the selected size and quality, and the session fields
unchanged; in particular the prompt is not cleared after a success.  With
`generateImage_cons_eq` and `generateImage_error_eq` this pins the frame:
only the in-flight flag and, on success, the result sequence change. -/
theorem generate_frame (s : AppState) (nowId nowTs : Nat)
    (respond : Except Unit (List ImageData)) :
    (generateImage s nowId nowTs respond).prompt = s.prompt ∧
    (generateImage s nowId nowTs respond).size = s.size ∧
    (generateImage s nowId nowTs respond).quality = s.quality ∧
    (generateImage s nowId nowTs respond).user = s.user ∧
    (generateImage s nowId nowTs respond).loading = s.loading := by
  by_cases h : jsTrim s.prompt = ""
  · rw [generateImage_guard s nowId nowTs respond h]
    exact ⟨rfl, rfl, rfl, rfl, rfl⟩
  · cases respond with
    | error e =>
      rw [generateImage_error_eq s nowId nowTs e h]
      exact ⟨rfl, rfl, rfl, rfl, rfl⟩
    | ok data =>
      cases data with
      | nil =>
        rw [generateImage_nil_eq s nowId nowTs h]
        exact ⟨rfl, rfl, rfl, rfl, rfl⟩
      | cons first rest =>
        rw [generateImage_cons_eq s nowId nowTs first rest h]
        exact ⟨rfl, rfl, rfl, rfl, rfl⟩

end ImageGen
